import Mathlib

/-!
Shallow embedding of `DeltaSymbol.py` (gutow/DeltaSymbol).

The Python module defines `class DeltaSymbol(Symbol)` extending SymPy's
`Symbol`, plus a factory `mkdelta` and the aliases `DeltaSym = DeltaSymbol`,
`DSym = DeltaSymbol`.

Modelling decisions, traced to the source:

* A SymPy symbol is compared by SymPy's structural equality: two `Basic`
  objects are equal iff they have the same (Python) class and the same
  hashable content; for `Symbol` the hashable content is the name together
  with the (canonically ordered) assumptions.  We model a symbol object as
  the structure `Sym` with these three components and model equality as
  structural equality on it.

* `DeltaSymbol.__new__` (lines 53-56) executes `cls.name = textname` and
  `cls.basestr = deltaof`: these assign attributes of the *class*
  `DeltaSymbol`, not of the instance being created.  SymPy's
  `Symbol.__xnew__` afterwards stores `name` in the instance `__dict__`
  (the plain class attribute `name` set just before is not a data
  descriptor, so the instance assignment lands in, and instance lookup is
  served from, the instance `__dict__`).  `basestr`, in contrast, is never
  stored on an instance, so every attribute lookup `self.basestr` resolves
  to the class attribute, i.e. to the `deltaof` of the most recently
  constructed `DeltaSymbol`.  We therefore model the mutable class
  attributes as an explicit state `ClassState` threaded through the
  operations, and instance-attribute lookup of `basestr` as a read of that
  state (`Sym.basestrAttr`).

* The IPython namespace a caller's frame exposes (`frame.f_globals`) is a
  Python dict; we model a dict as an association list `PyDict` with
  first-key-wins lookup `nsGet` and in-place update `nsSet`.

* `_get_ipython_globals` (lines 74-107) inspects the current frame and then
  walks `f_back` outward; a frame matches when its globals bind
  `__name__` to the string `"__main__"` and `__doc__` to the IPython
  docstring (a missing key, or a non-string / `None` value, makes the
  match fail via the `KeyError` handler resp. the string comparison).
  Walking past the outermost frame dereferences `None` and is reraised as
  an `AttributeError` carrying the fixed message; we model the walk over
  the list of frame globals (innermost first) returning
  `Except String PyDict`, the error case carrying that message.

* `explicit` (lines 109-116) builds `basestr + "_i"` / `basestr + "_f"`,
  stores `Symbol(finalstr)` and `Symbol(initstr)` into the located
  namespace, and returns `ipyglobals[finalstr] - ipyglobals[initstr]`.
  The two reads happen immediately after the writes and (the two keys being
  distinct) return exactly the just-stored plain symbols — established by
  the lemmas `explicit_readback_f` / `explicit_readback_i` below — so the
  definition returns the difference of those symbols directly.  Symbolic
  expressions are modelled by the inductive `Expr`; numeric substitution
  of all symbols followed by evaluation is `Expr.evalWith`.

* `mkdelta` (lines 118-122) constructs a `DeltaSymbol` twice (once for
  `tmpcls`, once for the value stored into the namespace), binds the
  second one under `textname` in the located namespace, and returns the
  read-back `ipyglobals[textname]`, which equals the stored symbol.
-/

namespace DeltaSymbolSpec

/-- The Python class of a symbol object: SymPy's plain `Symbol`, or the
subclass `DeltaSymbol`.  SymPy equality distinguishes the two. -/
inductive SymClass where
  | plain
  | delta
deriving DecidableEq

/-- A SymPy symbol object as far as SymPy's structural equality sees it:
its Python class, its `name` (the construction string, stored in the
instance `__dict__`), and its assumptions (canonically ordered
key/value pairs). -/
structure Sym where
  cls : SymClass
  name : String
  assumptions : List (String × Bool)
deriving DecidableEq

/-- `Symbol(n)`: a plain SymPy symbol constructed with no assumptions,
as in lines 114-115 of the source. -/
def Symbol (n : String) : Sym :=
  ⟨SymClass.plain, n, []⟩

/-- SymPy's `==` on symbols: same class, same name, same assumptions
(`Basic.__eq__` compares the type and the hashable content, which for
`Symbol` is the name plus the sorted assumptions). -/
def symEq (a b : Sym) : Bool :=
  a.cls == b.cls && a.name == b.name && a.assumptions == b.assumptions

/-- The class attributes of `DeltaSymbol` that `__new__` (lines 54-55)
assigns on the class object itself: `cls.name = textname` and
`cls.basestr = deltaof`.  They are process-wide mutable state shared by
all instances; every construction overwrites both. -/
structure ClassState where
  nameAttr : String
  basestr : String
deriving DecidableEq

/-- `DeltaSymbol.__new__(cls, textname, deltaof, **assumptions)`
(lines 53-56): sets the class attributes, then lets `Symbol.__new__`
build the instance, whose instance `__dict__` receives `name = textname`.
Returns the new instance together with the updated class state; the prior
class state is overwritten unconditionally. -/
def DeltaSymbol.new (_cs : ClassState) (textname deltaof : String)
    (assumptions : List (String × Bool)) : Sym × ClassState :=
  (⟨SymClass.delta, textname, assumptions⟩, ⟨textname, deltaof⟩)

/-- Attribute lookup `self.basestr` on a `DeltaSymbol` instance: no
instance ever stores `basestr` in its `__dict__`, so the lookup falls
through to the class attribute, whatever it currently is. -/
def Sym.basestrAttr (_inst : Sym) (cs : ClassState) : String :=
  cs.basestr

/-- `DeltaSymbol._repr_latex_` (lines 58-59): the Jupyter rich-display
hook, rendering the dollar-delimited LaTeX form from the `basestr`
attribute lookup. -/
def reprLatex (inst : Sym) (cs : ClassState) : String :=
  "$\\Delta\x7b" ++ inst.basestrAttr cs ++ "\x7d$"

/-- `DeltaSymbol._latex` (lines 61-66): the SymPy LaTeX-printer hook,
rendering the undelimited LaTeX form from the `basestr` attribute
lookup. -/
def latexOf (inst : Sym) (cs : ClassState) : String :=
  "\\Delta\x7b" ++ inst.basestrAttr cs ++ "\x7d"

/-- `DeltaSymbol.__str__` (lines 68-69): returns `self.name`, the
instance attribute stored in the instance `__dict__`.
`__repr__` (lines 71-72) delegates to it. -/
def strOf (inst : Sym) : String :=
  inst.name

/-- A value bound in a Python namespace: a symbol, a string, `None`, or
anything else (tagged opaquely — the model never inspects it). -/
inductive PyVal where
  | sym (s : Sym)
  | str (s : String)
  | pynone
  | other (tag : Nat)
deriving DecidableEq

/-- A Python dict with string keys, as exposed by `frame.f_globals`:
an association list, lookup returning the first binding of a key. -/
abbrev PyDict := List (String × PyVal)

/-- Dict lookup `d[k]`, returning `none` when the key is absent
(the `KeyError` case). -/
def nsGet : PyDict → String → Option PyVal
  | [], _ => none
  | (k', v) :: rest, k => if k' = k then some v else nsGet rest k

/-- Dict assignment `d[k] = v`: replaces the binding of `k` in place when
present, appends it otherwise; all other bindings are untouched. -/
def nsSet : PyDict → String → PyVal → PyDict
  | [], k, v => [(k, v)]
  | (k', v') :: rest, k, v =>
    if k' = k then (k, v) :: rest else (k', v') :: nsSet rest k v

/-- The docstring IPython gives the interactive `__main__` module; the
sentinel tested on line 86 and line 102 of the source. -/
def ipythonDocstring : String :=
  "Automatically created module for IPython interactive environment"

/-- The message of the `AttributeError` raised on lines 105-106 when the
frame walk runs off the end of the call stack. -/
def noSessionMsg : String :=
  "Unable to find `__main__` of interactive session. Are you running in Jupyter or IPython?"

/-- The per-frame test of `_get_ipython_globals` (lines 79-87 and
94-103): the frame's globals must bind `__name__` to the string
`"__main__"` and `__doc__` to the IPython docstring.  A missing key
takes the `KeyError` branch (`namestr = ''`), and a `None` or non-string
value compares unequal to the sentinel string, so in every such case the
frame does not match. -/
def matchesIPython (g : PyDict) : Bool :=
  nsGet g "__name__" == some (PyVal.str "__main__")
    && nsGet g "__doc__" == some (PyVal.str ipythonDocstring)

/-- `DeltaSymbol._get_ipython_globals` (lines 74-107): starting from the
current frame and walking `f_back` outward (the list holds each frame's
globals, innermost first), return the globals of the first frame matching
the IPython sentinel; if the walk exhausts the stack, the `None` frame's
attribute access raises, reraised as the fixed-message error. -/
def getIPythonGlobals : List PyDict → Except String PyDict
  | [] => Except.error noSessionMsg
  | g :: rest => if matchesIPython g then Except.ok g else getIPythonGlobals rest

/-- A SymPy expression as far as the claims need: symbols, integers, and
differences (`a - b`). -/
inductive Expr where
  | sym (s : Sym)
  | num (n : Int)
  | sub (a b : Expr)
deriving DecidableEq

/-- `expr.subs(...)` with a numeric value for every symbol, followed by
numeric evaluation: substitute `env s.name` for each symbol `s` and
compute the result. -/
def Expr.evalWith (env : String → Int) : Expr → Int
  | Expr.sym s => env s.name
  | Expr.num n => n
  | Expr.sub a b => a.evalWith env - b.evalWith env

/-- `DeltaSymbol.explicit` (lines 109-116), acting on the namespace the
scope resolution located: build `initstr = basestr + "_i"` and
`finalstr = basestr + "_f"` from the `basestr` attribute lookup, store
`Symbol(finalstr)` then `Symbol(initstr)` into the namespace, and return
`ipyglobals[finalstr] - ipyglobals[initstr]` — the two reads immediately
follow the writes and return exactly the stored symbols (lemmas
`explicit_readback_f` / `explicit_readback_i`). -/
def explicit (inst : Sym) (cs : ClassState) (ns : PyDict) : Expr × PyDict :=
  let initstr := inst.basestrAttr cs ++ "_i"
  let finalstr := inst.basestrAttr cs ++ "_f"
  let ns1 := nsSet ns finalstr (PyVal.sym (Symbol finalstr))
  let ns2 := nsSet ns1 initstr (PyVal.sym (Symbol initstr))
  (Expr.sub (Expr.sym (Symbol finalstr)) (Expr.sym (Symbol initstr)), ns2)

/-- `mkdelta(textname, deltaof, **assumptions)` (lines 118-122), acting on
the namespace the scope resolution located: construct a `DeltaSymbol`
(the discarded `tmpcls`, whose construction already updates the class
attributes), construct a second one, bind it under `textname` in the
namespace, and return the read-back `ipyglobals[textname]`, which is that
second instance.  Result: (returned symbol, class state, namespace). -/
def mkdelta (cs : ClassState) (ns : PyDict) (textname deltaof : String)
    (assumptions : List (String × Bool)) : Sym × ClassState × PyDict :=
  let t1 := DeltaSymbol.new cs textname deltaof assumptions
  let t2 := DeltaSymbol.new t1.2 textname deltaof assumptions
  let ns1 := nsSet ns textname (PyVal.sym t2.1)
  (t2.1, t2.2, ns1)

/-- `DeltaSym = DeltaSymbol` (line 124): an alias of the class, so calling
it is exactly the constructor. -/
def DeltaSym : ClassState → String → String → List (String × Bool) → Sym × ClassState :=
  DeltaSymbol.new

/-- `DSym = DeltaSymbol` (line 125): an alias of the class, so calling it
is exactly the constructor. -/
def DSym : ClassState → String → String → List (String × Bool) → Sym × ClassState :=
  DeltaSymbol.new

/-! ### Dictionary lemmas -/

/-- Reading back the key just assigned returns the assigned value. -/
theorem nsGet_nsSet_self (ns : PyDict) (k : String) (v : PyVal) :
    nsGet (nsSet ns k v) k = some v := by
  induction ns with
  | nil => simp [nsSet, nsGet]
  | cons hd tl ih =>
    obtain ⟨k', v'⟩ := hd
    by_cases h : k' = k
    · simp [nsSet, nsGet, h]
    · simp [nsSet, nsGet, h, ih]

/-- Assigning one key leaves every other key's binding unchanged. -/
theorem nsGet_nsSet_ne (ns : PyDict) (k k' : String) (v : PyVal) (h : k' ≠ k) :
    nsGet (nsSet ns k v) k' = nsGet ns k' := by
  have h' : ¬ k = k' := fun hh => h hh.symm
  induction ns with
  | nil => simp [nsSet, nsGet, h']
  | cons hd tl ih =>
    obtain ⟨k'', v''⟩ := hd
    by_cases h2 : k'' = k
    · subst h2
      simp [nsSet, nsGet, h']
    · simp [nsSet, nsGet, h2, ih]

/-- The two symbol names `explicit` builds differ: `b + "_f" ≠ b + "_i"`. -/
theorem finalstr_ne_initstr (b : String) : b ++ "_f" ≠ b ++ "_i" := by
  intro h
  have h2 : (b ++ "_f").data = (b ++ "_i").data := congrArg String.data h
  rw [String.data_append, String.data_append] at h2
  have h3 := List.append_cancel_left h2
  simp at h3

/-- In the state `explicit` returns, the read `ipyglobals[finalstr]`
performed on line 116 yields exactly the symbol stored on line 114. -/
theorem explicit_readback_f (inst : Sym) (cs : ClassState) (ns : PyDict) :
    nsGet (explicit inst cs ns).2 (inst.basestrAttr cs ++ "_f")
      = some (PyVal.sym (Symbol (inst.basestrAttr cs ++ "_f"))) := by
  unfold explicit
  rw [nsGet_nsSet_ne _ _ _ _ (finalstr_ne_initstr (inst.basestrAttr cs)),
    nsGet_nsSet_self]

/-- In the state `explicit` returns, the read `ipyglobals[initstr]`
performed on line 116 yields exactly the symbol stored on line 115. -/
theorem explicit_readback_i (inst : Sym) (cs : ClassState) (ns : PyDict) :
    nsGet (explicit inst cs ns).2 (inst.basestrAttr cs ++ "_i")
      = some (PyVal.sym (Symbol (inst.basestrAttr cs ++ "_i"))) := by
  unfold explicit
  rw [nsGet_nsSet_self]

/-! ### Claims -/

/-- C1: for every `DeltaSymbol` whose base string (the `basestr` attribute
lookup at call time) is `X`, `explicit()` returns an expression that, after
substituting `X_f = a` and `X_i = b` for any integers `a, b`, evaluates to
`a - b`. -/
theorem c1_explicit_subs (inst : Sym) (cs : ClassState) (ns : PyDict)
    (env : String → Int) (a b : Int)
    (hf : env (inst.basestrAttr cs ++ "_f") = a)
    (hi : env (inst.basestrAttr cs ++ "_i") = b) :
    Expr.evalWith env (explicit inst cs ns).1 = a - b := by
  simp [explicit, Expr.evalWith, Symbol, hf, hi]

/-- Witness for C1 at base string `"G"`, `G_f = 2`, `G_i = 1`:
the expansion evaluates to `2 - 1`. -/
theorem c1_explicit_subs_witness :
    Expr.evalWith (fun s => if s = "G_f" then 2 else if s = "G_i" then 1 else 0)
      (explicit ⟨SymClass.delta, "DG", []⟩ ⟨"DG", "G"⟩ []).1 = 2 - 1 :=
  c1_explicit_subs ⟨SymClass.delta, "DG", []⟩ ⟨"DG", "G"⟩ []
    (fun s => if s = "G_f" then 2 else if s = "G_i" then 1 else 0) 2 1
    (by decide) (by decide)

/-- C2: for every textname `T` and base string `X`, the plain-text
rendering of the freshly constructed `DeltaSymbol(T, X)` is `T`, while
both rich/LaTeX renderings are the typeset `\Delta` followed by `X` in
braces — independent of `T`. -/
theorem c2_renderings (cs : ClassState) (t x : String)
    (a : List (String × Bool)) :
    strOf (DeltaSymbol.new cs t x a).1 = t ∧
    reprLatex (DeltaSymbol.new cs t x a).1 (DeltaSymbol.new cs t x a).2
      = "$\\Delta\x7b" ++ x ++ "\x7d$" ∧
    latexOf (DeltaSymbol.new cs t x a).1 (DeltaSymbol.new cs t x a).2
      = "\\Delta\x7b" ++ x ++ "\x7d" :=
  ⟨rfl, rfl, rfl⟩

/-- C3 (failing input): after constructing `DeltaSymbol('DG', 'G')` and
then `DeltaSymbol('DT', 'T')`, the *first* instance's plain-text
rendering is still `"DG"`, but its typeset rendering has become
`\Delta` of `T` — the class-attribute `basestr` was overwritten by the
second construction, so the first instance's base string and typeset
rendering did change after construction. -/
theorem c3_basestr_is_class_attribute :
    strOf (DeltaSymbol.new ⟨"", ""⟩ "DG" "G" []).1 = "DG" ∧
    reprLatex (DeltaSymbol.new ⟨"", ""⟩ "DG" "G" []).1
        (DeltaSymbol.new (DeltaSymbol.new ⟨"", ""⟩ "DG" "G" []).2 "DT" "T" []).2
      = "$\\Delta\x7bT\x7d$" :=
  ⟨rfl, rfl⟩

/-- C4: when the scope resolution locates the interactive namespace `ns`,
`explicit()` leaves `ns` with `basestr + "_f"` and `basestr + "_i"` bound
to the fresh plain symbols — overwriting whatever was bound there before,
since the conclusion holds for every prior `ns` — and every other key's
binding unchanged. -/
theorem c4_explicit_scope_effect (inst : Sym) (cs : ClassState)
    (stack : List PyDict) (ns : PyDict)
    (_h : getIPythonGlobals stack = Except.ok ns) :
    nsGet (explicit inst cs ns).2 (inst.basestrAttr cs ++ "_f")
      = some (PyVal.sym (Symbol (inst.basestrAttr cs ++ "_f"))) ∧
    nsGet (explicit inst cs ns).2 (inst.basestrAttr cs ++ "_i")
      = some (PyVal.sym (Symbol (inst.basestrAttr cs ++ "_i"))) ∧
    ∀ k, k ≠ inst.basestrAttr cs ++ "_f" → k ≠ inst.basestrAttr cs ++ "_i" →
      nsGet (explicit inst cs ns).2 k = nsGet ns k := by
  refine ⟨explicit_readback_f inst cs ns, explicit_readback_i inst cs ns, ?_⟩
  intro k hkf hki
  unfold explicit
  rw [nsGet_nsSet_ne _ _ _ _ hki, nsGet_nsSet_ne _ _ _ _ hkf]

/-- Witness for C4: in a stack whose innermost frame is the IPython
`__main__` frame with `G_f` already bound, `explicit` overwrites `G_f`,
binds `G_i`, and leaves the unrelated binding `x` unchanged. -/
theorem c4_explicit_scope_effect_witness :
    nsGet (explicit ⟨SymClass.delta, "DG", []⟩ ⟨"DG", "G"⟩
        [("__name__", PyVal.str "__main__"),
         ("__doc__", PyVal.str ipythonDocstring),
         ("G_f", PyVal.other 7), ("x", PyVal.other 3)]).2 "G_f"
      = some (PyVal.sym (Symbol "G_f")) ∧
    nsGet (explicit ⟨SymClass.delta, "DG", []⟩ ⟨"DG", "G"⟩
        [("__name__", PyVal.str "__main__"),
         ("__doc__", PyVal.str ipythonDocstring),
         ("G_f", PyVal.other 7), ("x", PyVal.other 3)]).2 "x"
      = some (PyVal.other 3) := by
  have h := c4_explicit_scope_effect ⟨SymClass.delta, "DG", []⟩ ⟨"DG", "G"⟩
    [[("__name__", PyVal.str "__main__"),
      ("__doc__", PyVal.str ipythonDocstring),
      ("G_f", PyVal.other 7), ("x", PyVal.other 3)]]
    [("__name__", PyVal.str "__main__"),
     ("__doc__", PyVal.str ipythonDocstring),
     ("G_f", PyVal.other 7), ("x", PyVal.other 3)] (by rfl)
  exact ⟨h.1, h.2.2 "x" (by decide) (by decide)⟩

/-- C5: when no frame on the stack matches the IPython sentinel (module
name `"__main__"` with the IPython auto-generated docstring), the scope
resolution walk ends in the fixed "no session" error rather than
succeeding or failing differently. -/
theorem c5_no_session_error (stack : List PyDict)
    (h : ∀ g ∈ stack, matchesIPython g = false) :
    getIPythonGlobals stack = Except.error noSessionMsg := by
  induction stack with
  | nil => rfl
  | cons g rest ih =>
    have hg := h g (List.mem_cons_self g rest)
    simp only [getIPythonGlobals, hg, if_false, Bool.false_eq_true]
    exact ih fun g' hg' => h g' (List.mem_cons_of_mem g hg')

/-- Witness for C5: a two-frame stack (the module frame and a plain
script frame), neither matching the sentinel, produces the error. -/
theorem c5_no_session_error_witness :
    getIPythonGlobals
      [[("__name__", PyVal.str "DeltaSymbol"), ("__doc__", PyVal.pynone)],
       [("__name__", PyVal.str "__main__"), ("__doc__", PyVal.pynone)]]
      = Except.error noSessionMsg :=
  c5_no_session_error
    [[("__name__", PyVal.str "DeltaSymbol"), ("__doc__", PyVal.pynone)],
     [("__name__", PyVal.str "__main__"), ("__doc__", PyVal.pynone)]]
    (by decide)

/-- C6 (counterexample): `DeltaSymbol('DG', 'G')` and
`DeltaSymbol('DG', 'T')` are built from *different* base names (`'G'` vs
`'T'`) yet compare equal under SymPy's symbol equality, because the base
string does not enter the hashable content — refuting the claim's second
half, that instances built from different base names compare unequal. -/
theorem c6_counterexample :
    symEq (DeltaSymbol.new ⟨"", ""⟩ "DG" "G" []).1
        (DeltaSymbol.new (DeltaSymbol.new ⟨"", ""⟩ "DG" "G" []).2 "DG" "T" []).1
      = true := by decide

/-- C6 (amended): SymPy's symbol equality on `DeltaSymbol` instances is
decided by the construction string (the textname) and the assumptions
alone; the base name does not participate.  Instances with the same
textname and assumptions compare equal whatever their base names, and
instances with different textnames compare unequal. -/
theorem c6_equality_by_construction_string (cs₁ cs₂ : ClassState)
    (t₁ t₂ d₁ d₂ : String) (a : List (String × Bool)) :
    (t₁ = t₂ →
      symEq (DeltaSymbol.new cs₁ t₁ d₁ a).1 (DeltaSymbol.new cs₂ t₂ d₂ a).1
        = true) ∧
    (t₁ ≠ t₂ →
      symEq (DeltaSymbol.new cs₁ t₁ d₁ a).1 (DeltaSymbol.new cs₂ t₂ d₂ a).1
        = false) := by
  constructor
  · intro h
    subst h
    simp [symEq, DeltaSymbol.new]
  · intro h
    simp [symEq, DeltaSymbol.new, h]

/-- Witness for the amended C6: `DG`-named instances with base names `G`
and `T` compare equal; a `DG`-named and a `DT`-named instance compare
unequal. -/
theorem c6_equality_by_construction_string_witness :
    symEq (DeltaSymbol.new ⟨"", ""⟩ "DG" "G" []).1
        (DeltaSymbol.new ⟨"", ""⟩ "DG" "T" []).1 = true ∧
    symEq (DeltaSymbol.new ⟨"", ""⟩ "DG" "G" []).1
        (DeltaSymbol.new ⟨"", ""⟩ "DT" "T" []).1 = false :=
  ⟨(c6_equality_by_construction_string ⟨"", ""⟩ ⟨"", ""⟩ "DG" "DG" "G" "T" []).1
      rfl,
   (c6_equality_by_construction_string ⟨"", ""⟩ ⟨"", ""⟩ "DG" "DT" "G" "T" []).2
      (by decide)⟩

/-- C7: when the scope resolution locates the interactive namespace `ns`,
`mkdelta(textname, deltaof, **assumptions)` returns a `DeltaSymbol` built
from those arguments and leaves it bound under `textname` in `ns`. -/
theorem c7_mkdelta_binds_and_returns (cs : ClassState)
    (stack : List PyDict) (ns : PyDict)
    (_h : getIPythonGlobals stack = Except.ok ns)
    (t d : String) (a : List (String × Bool)) :
    (mkdelta cs ns t d a).1 = ⟨SymClass.delta, t, a⟩ ∧
    nsGet (mkdelta cs ns t d a).2.2 t
      = some (PyVal.sym (mkdelta cs ns t d a).1) := by
  exact ⟨rfl, nsGet_nsSet_self ns t _⟩

/-- Witness for C7: `mkdelta('DG', 'G')` run against the IPython
`__main__` frame returns the `DG` delta symbol and binds `DG` in that
frame's globals. -/
theorem c7_mkdelta_binds_and_returns_witness :
    (mkdelta ⟨"", ""⟩
        [("__name__", PyVal.str "__main__"),
         ("__doc__", PyVal.str ipythonDocstring)] "DG" "G" []).1
      = ⟨SymClass.delta, "DG", []⟩ ∧
    nsGet (mkdelta ⟨"", ""⟩
        [("__name__", PyVal.str "__main__"),
         ("__doc__", PyVal.str ipythonDocstring)] "DG" "G" []).2.2 "DG"
      = some (PyVal.sym (mkdelta ⟨"", ""⟩
          [("__name__", PyVal.str "__main__"),
           ("__doc__", PyVal.str ipythonDocstring)] "DG" "G" []).1) :=
  c7_mkdelta_binds_and_returns ⟨"", ""⟩
    [[("__name__", PyVal.str "__main__"),
      ("__doc__", PyVal.str ipythonDocstring)]]
    [("__name__", PyVal.str "__main__"),
     ("__doc__", PyVal.str ipythonDocstring)] (by rfl) "DG" "G" []

/-- C8 (counterexample): `mkdelta` and direct construction are not
synonyms.  Run from the empty interactive namespace, `mkdelta('DG', 'G')`
leaves `DG` bound there, whereas `DeltaSym` / `DSym` / the class call
(`DeltaSymbol.new`) take no namespace at all and so leave every namespace
untouched (`nsGet` of the untouched namespace is still `none`) — the
effects differ, refuting "same behavior". -/
theorem c8_counterexample :
    nsGet (mkdelta ⟨"", ""⟩ [] "DG" "G" []).2.2 "DG"
        = some (PyVal.sym ⟨SymClass.delta, "DG", []⟩) ∧
    nsGet [] "DG" = none := by
  constructor
  · exact nsGet_nsSet_self [] "DG" _
  · rfl

/-- C8 (amended): `DeltaSym`, `DSym` and direct construction via the
class name are the same constructor with identical behavior, and
`mkdelta` returns the same symbol and leaves the same class state as
direct construction would — but additionally binds the symbol under
`textname` in the located interactive namespace. -/
theorem c8_aliases_same_mkdelta_extra (cs : ClassState) (ns : PyDict)
    (t d : String) (a : List (String × Bool)) :
    DeltaSym = DeltaSymbol.new ∧
    DSym = DeltaSymbol.new ∧
    (mkdelta cs ns t d a).1 = (DeltaSymbol.new cs t d a).1 ∧
    (mkdelta cs ns t d a).2.1 = (DeltaSymbol.new cs t d a).2 ∧
    (mkdelta cs ns t d a).2.2
      = nsSet ns t (PyVal.sym (DeltaSymbol.new cs t d a).1) :=
  ⟨rfl, rfl, rfl, rfl, rfl⟩

/-- C9: `explicit()` is idempotent in its result value: calling it again
on the state the first call produced returns the same expression. -/
theorem c9_explicit_idempotent (inst : Sym) (cs : ClassState)
    (ns : PyDict) :
    (explicit inst cs (explicit inst cs ns).2).1 = (explicit inst cs ns).1 :=
  rfl

/-- C10: whatever the instance's own assumptions, the two symbols
`explicit()` injects are plain `Symbol`s (not `DeltaSymbol`s) carrying no
assumptions, and the returned expression is exactly the difference of
those two injected symbols. -/
theorem c10_injected_symbols_plain (inst : Sym) (cs : ClassState)
    (ns : PyDict) :
    nsGet (explicit inst cs ns).2 (inst.basestrAttr cs ++ "_f")
      = some (PyVal.sym ⟨SymClass.plain, inst.basestrAttr cs ++ "_f", []⟩) ∧
    nsGet (explicit inst cs ns).2 (inst.basestrAttr cs ++ "_i")
      = some (PyVal.sym ⟨SymClass.plain, inst.basestrAttr cs ++ "_i", []⟩) ∧
    (explicit inst cs ns).1
      = Expr.sub
          (Expr.sym ⟨SymClass.plain, inst.basestrAttr cs ++ "_f", []⟩)
          (Expr.sym ⟨SymClass.plain, inst.basestrAttr cs ++ "_i", []⟩) :=
  ⟨explicit_readback_f inst cs ns, explicit_readback_i inst cs ns, rfl⟩

end DeltaSymbolSpec
